import Mathlib

/-!
Verification of the Google-Sheets-to-Airtable sync script
(`src/google-apps-script/SheetsToAirtableSync.js`, version 1.0, and the
revised multi-destination version 1.1.0 of the same script that ships in
`CONFIGURATION.md`).

Modelling conventions, used throughout:

* JavaScript numbers are modelled as exact rationals (`ℚ`).  Where `NaN`
  can actually reach an operation (the `new Date(str)` parse in the rate
  limiter, the `parseFloat`/`parseInt` coercions in `getSheetData`) the
  value is an `Option ℚ` / `Option Int`, with `none` standing for `NaN`
  (equivalently, a failed parse / an Invalid Date), and the JS operators
  are embedded with their `NaN`-propagating behaviour (`jsSub`, `jsDivC`,
  `jsLtB`).  Counts produced by `parseInt` are modelled as `Int`.
* JS truthiness of a string is emptiness; `x || y` on strings is
  `jsOrString`, and `x || 0` on numbers is `jsOrZeroQ` / `jsOrZeroInt`.
* The two aggregation objects `formTotals` / `formDonations` of
  `processData` are always created, reset and written in lockstep for the
  same key, so they are embedded as a single association list from keys to
  pairs (`lookupKV` / `setKV`); the falsy-initialisation guard
  `if (!formTotals[formName])` tests only the first component, exactly as
  in the source.
* Host interactions (the Airtable HTTP responses, the spreadsheet grid,
  the script-properties store, the per-request outcomes) are explicit
  inputs.  Side effects of the orchestration code (`logMessage`/`logError`
  lines and outgoing HTTP requests) are recorded in an `Event` trace, and
  the rate-limit property `lastAutoSyncTime` is threaded explicitly as a
  `PropsState` value.  The stored property is modelled by the result of
  parsing it with `new Date`: `none` = no property stored, `some none` =
  stored but unparseable (Invalid Date), `some (some t)` = parses to
  epoch-milliseconds `t`.
* `getSheetData`'s resolution of the three column positions from the
  header row is elided: a data row is modelled as the record of its three
  relevant cells (`RawRow`), and the header/sheet failure modes are
  environment flags in the trace embedding.  The progress log emitted
  every 50000 rows is elided from the trace.
-/

/-- JS `a - b` on numbers, `none` = NaN. -/
def jsSub (a b : Option ℚ) : Option ℚ :=
  match a, b with
  | some x, some y => some (x - y)
  | _, _ => none

/-- JS `a / c` for a nonzero constant divisor `c`, `none` = NaN. -/
def jsDivC (a : Option ℚ) (c : ℚ) : Option ℚ :=
  match a with
  | some x => some (x / c)
  | none => none

/-- JS `a < b` on numbers: any comparison with NaN is false. -/
def jsLtB (a b : Option ℚ) : Bool :=
  match a, b with
  | some x, some y => decide (x < y)
  | _, _ => false

/-- JS `s || d` for strings: an empty string is falsy. -/
def jsOrString (v : Option String) (d : String) : String :=
  match v with
  | none => d
  | some s => if s = "" then d else s

/-- JS `q || 0` for a number that is never NaN (`0` is falsy). -/
def jsOrZeroQ (q : ℚ) : ℚ := if q = 0 then 0 else q

/-- JS `n || 0` for an integer that is never NaN. -/
def jsOrZeroInt (n : Int) : Int := if n = 0 then 0 else n

/-- JS `parseFloat(x) || 0`: NaN (= `none`, parse failure) defaults to 0. -/
def jsNumOrZero (v : Option ℚ) : ℚ :=
  match v with
  | none => 0
  | some q => jsOrZeroQ q

/-- JS `parseInt(x) || 0`: NaN (= `none`, parse failure) defaults to 0. -/
def jsIntOrZero (v : Option Int) : Int :=
  match v with
  | none => 0
  | some n => jsOrZeroInt n

/-- Whether `pat` occurs as a contiguous substring, i.e. JS
`s.indexOf(pat) !== -1`, on character lists. -/
def containsSub (pat : List Char) : List Char → Bool
  | [] => pat.isEmpty
  | c :: rest => pat.isPrefixOf (c :: rest) || containsSub pat rest

/-- JS `s.indexOf(pat) !== -1`. -/
def jsIncludes (s pat : String) : Bool := containsSub pat.data s.data

/-- Remove the first (leftmost) occurrence of `pat`, on character lists;
if `pat` does not occur the list is unchanged. -/
def replaceFirstAux (pat : List Char) : List Char → List Char
  | [] => []
  | c :: rest =>
    if pat.isPrefixOf (c :: rest) then (c :: rest).drop pat.length
    else c :: replaceFirstAux pat rest

/-- JS `s.replace(pat, '')` for a plain-string `pat`: removes the first
occurrence of `pat`. -/
def jsReplaceFirst (s pat : String) : String := ⟨replaceFirstAux pat.data s.data⟩

-- Configuration constants of the script (v1.0 values; v1.1.0 moves the
-- API key into script properties and lowers the rate limit to 0.25h).
def AIRTABLE_BASE_ID : String := "appGDzLGgrYmcW9R1"
def AIRTABLE_TABLE_ID : String := "tblTo3zgLYNby9UnL"
def SHEET_NAME : String := "raw_import"
def ACTBLUE_URL_PREFIX : String := "https://secure.actblue.com/donate/"
def RATE_LIMIT_HOURS : ℚ := 1
def RATE_LIMIT_HOURS_V11 : ℚ := 1 / 4

/-- One item of the Airtable read response's `records` collection,
restricted to the fields the script reads: `record.id`,
`record.fields["ActBlue Page"]` and the fallback
`record.fields["fldxiPzVeVCUXsnq1"]` (v1.0 only).  A `none` field is one
that is absent from the JSON object (JS `undefined`). -/
structure AirtableItem where
  id : String
  actBluePage : Option String
  actBluePageById : Option String
deriving DecidableEq

/-- The record produced by `fetchAirtableRecords` for one response item. -/
structure RemoteRecord where
  id : String
  actBlueUrl : String
  formSlug : String
deriving DecidableEq

/-- v1.0: `record.fields["ActBlue Page"] || record.fields["fldxiPzVeVCUXsnq1"] || ''`. -/
def extractActBlueUrl (item : AirtableItem) : String :=
  jsOrString item.actBluePage (jsOrString item.actBluePageById "")

/-- v1.1.0: `record.fields[AIRTABLE_ACTBLUE_PAGE_FIELD] || ''`. -/
def extractActBlueUrlV11 (item : AirtableItem) : String :=
  jsOrString item.actBluePage ""

/-- The slug computation of `fetchAirtableRecords`: when the URL is
truthy and `indexOf` finds the ActBlue prefix in it, `formSlug` is the
URL with the first occurrence of the prefix removed by `replace`,
otherwise the empty string. -/
def mkFormSlug (actBlueUrl : String) : String :=
  if actBlueUrl ≠ "" ∧ jsIncludes actBlueUrl ACTBLUE_URL_PREFIX = true then
    jsReplaceFirst actBlueUrl ACTBLUE_URL_PREFIX
  else ""

/-- The per-item body of the `data.records.map(...)` in `fetchAirtableRecords` (v1.0). -/
def mkRemoteRecord (item : AirtableItem) : RemoteRecord :=
  let actBlueUrl := extractActBlueUrl item
  { id := item.id, actBlueUrl := actBlueUrl, formSlug := mkFormSlug actBlueUrl }

/-- Same, for v1.1.0 (single URL field, same slug logic). -/
def mkRemoteRecordV11 (item : AirtableItem) : RemoteRecord :=
  let actBlueUrl := extractActBlueUrlV11 item
  { id := item.id, actBlueUrl := actBlueUrl, formSlug := mkFormSlug actBlueUrl }

/-- The record-extraction part of `fetchAirtableRecords` (v1.0):
`data.records.map(...).filter(record => record.formSlug)`. -/
def fetchAirtableRecords (items : List AirtableItem) : List RemoteRecord :=
  (items.map mkRemoteRecord).filter (fun record => record.formSlug != "")

/-- Same, for v1.1.0. -/
def fetchAirtableRecordsV11 (items : List AirtableItem) : List RemoteRecord :=
  (items.map mkRemoteRecordV11).filter (fun record => record.formSlug != "")

/-- One data row of the `raw_import` sheet, projected onto the three
columns that `getSheetData` reads (positions resolved from the header
row).  The two measure cells are modelled by their parse result:
`none` = `parseFloat`/`parseInt` returns NaN. -/
structure RawRow where
  form_name : String
  dollars_raised : Option ℚ
  num_of_donations : Option Int
deriving DecidableEq

/-- A materialized sheet row, as pushed onto `sheetData` by `getSheetData`. -/
structure SheetRow where
  formName : String
  dollarsRaised : ℚ
  numDonations : Int
deriving DecidableEq

/-- The per-row body of the `getSheetData` loop: keep the row iff its
`form_name` is truthy and `includes`-member of the slug list, and after
coercion `dollarsRaised > 0 || numDonations > 0`. -/
def getSheetRow (formSlugs : List String) (row : RawRow) : Option SheetRow :=
  if row.form_name ≠ "" ∧ row.form_name ∈ formSlugs then
    let dollarsRaised := jsNumOrZero row.dollars_raised
    let numDonations := jsIntOrZero row.num_of_donations
    if dollarsRaised > 0 ∨ numDonations > 0 then
      some { formName := row.form_name, dollarsRaised := dollarsRaised,
             numDonations := numDonations }
    else none
  else none

/-- One iteration of a push-if-produced loop (`if (...) array.push(x)`
inside a `for`/`forEach`), shared by `getSheetData` and `processData`. -/
def pushSome {α β : Type} (f : α → Option β) (acc : List β) (a : α) : List β :=
  match f a with
  | some b => acc ++ [b]
  | none => acc

/-- The row loop of `getSheetData` (identical in v1.0 and v1.1.0): iterate
the data rows, pushing each materialized `SheetRow`. -/
def getSheetData (airtableRecords : List RemoteRecord) (rows : List RawRow) :
    List SheetRow :=
  let formSlugs := airtableRecords.map RemoteRecord.formSlug
  rows.foldl (pushSome (getSheetRow formSlugs)) []

/-- First-match lookup in an association list (JS object property read;
`none` = `undefined`). -/
def lookupKV {α : Type} : List (String × α) → String → Option α
  | [], _ => none
  | (k, v) :: rest, key => if k = key then some v else lookupKV rest key

/-- Property write in an association list (JS object property assignment). -/
def setKV {α : Type} : List (String × α) → String → α → List (String × α)
  | [], key, v => [(key, v)]
  | (k, w) :: rest, key, v =>
    if k = key then (k, v) :: rest else (k, w) :: setKV rest key v

/-- One iteration of the aggregation `forEach` in `processData`.  The pair
holds `(formTotals[formName], formDonations[formName])`; the source's
guard `if (!formTotals[formName])` re-initialises BOTH entries to 0
whenever `formTotals[formName]` is absent or falsy (i.e. 0). -/
def aggStep (m : List (String × (ℚ × Int))) (item : SheetRow) :
    List (String × (ℚ × Int)) :=
  let current := lookupKV m item.formName
  let base : ℚ × Int :=
    match current with
    | none => (0, 0)
    | some (t, d) => if t = 0 then (0, 0) else (t, d)
  setKV m item.formName (base.1 + item.dollarsRaised, base.2 + item.numDonations)

/-- The aggregation phase of `processData`. -/
def aggregate (sheetData : List SheetRow) : List (String × (ℚ × Int)) :=
  sheetData.foldl aggStep []

/-- An update instruction, as pushed onto `processedData` by `processData`. -/
structure UpdateInstruction where
  id : String
  raised : ℚ
  donations : Int
deriving DecidableEq

/-- The per-record body of the matching `forEach` in `processData`:
emit iff `formTotals[formSlug] !== undefined || formDonations[formSlug]
!== undefined` (the two objects always hold the same keys), with values
`formTotals[formSlug] || 0` and `formDonations[formSlug] || 0`. -/
def emitInstruction (m : List (String × (ℚ × Int))) (record : RemoteRecord) :
    Option UpdateInstruction :=
  match lookupKV m record.formSlug with
  | some (t, d) =>
    some { id := record.id, raised := jsOrZeroQ t, donations := jsOrZeroInt d }
  | none => none

/-- `processData` (identical in v1.0 and v1.1.0): aggregate the sheet
data by form name, then join against the Airtable records in order. -/
def processData (airtableRecords : List RemoteRecord) (sheetData : List SheetRow) :
    List UpdateInstruction :=
  let m := aggregate sheetData
  airtableRecords.foldl (pushSome (emitInstruction m)) []

/-- The full per-target data pipeline (fetch mapping, sheet filtering,
aggregation, join), as composed by `syncData`. -/
def runPipeline (items : List AirtableItem) (rows : List RawRow) :
    List UpdateInstruction :=
  let airtableRecords := fetchAirtableRecords items
  processData airtableRecords (getSheetData airtableRecords rows)

/-- The rate limiter `shouldRespectRateLimit`, over the parse of the
stored `lastAutoSyncTime` property (`none` = no property stored,
`some none` = stored but unparseable, `some (some t)` = parses to epoch
milliseconds `t`) and the current time `now` in epoch milliseconds.
`threshold` is the `RATE_LIMIT_HOURS` constant. -/
def shouldRespectRateLimit (threshold : ℚ) (lastSyncTime : Option (Option ℚ))
    (now : ℚ) : Bool :=
  match lastSyncTime with
  | none => false
  | some parsedDate =>
    jsLtB (jsDivC (jsSub (some now) parsedDate) (1000 * 60 * 60)) (some threshold)

/-- The stored `lastAutoSyncTime` property, as seen through `new Date`. -/
abbrev PropsState := Option (Option ℚ)

/-- `updateLastSyncTime`: overwrite the stored property with
`new Date().toISOString()`, which parses back to `now`. -/
def updateLastSyncTime (now : ℚ) (_props : PropsState) : PropsState :=
  some (some now)

/-- An observable side effect of a sync run: a `logMessage` line, a
`logError` line, or an outgoing Airtable HTTP request. -/
inductive Event
  | log (msg : String)
  | logErr (msg : String)
  | httpGet (baseId tableId : String)
  | httpPatch (baseId tableId recordId : String)
deriving DecidableEq

/-- Whether an event is an outgoing HTTP request. -/
def isRequest : Event → Bool
  | .httpGet _ _ => true
  | .httpPatch _ _ _ => true
  | _ => false

/-- Whether an event is a log line (INFO or ERROR). -/
def isLogLine : Event → Bool
  | .log _ => true
  | .logErr _ => true
  | _ => false

/-- The record id attempted by a PATCH request event, if any. -/
def patchId : Event → Option String
  | .httpPatch _ _ recordId => some recordId
  | _ => none

/-- Outcome of one `UrlFetchApp.fetch` PATCH in `updateAirtable`:
an HTTP response with a code, or a thrown error. -/
inductive UpdateOutcome
  | http (code : Int)
  | thrown
deriving DecidableEq

/-- Outcome of the Airtable read request in `fetchAirtableRecords`:
a parsed body whose `records` collection holds `items`, a body with no
`records` key, or a thrown error. -/
inductive FetchResult
  | records (items : List AirtableItem)
  | noRecordsField
  | thrown
deriving DecidableEq

/-- The spreadsheet as `getSheetData` observes it: whether the
`raw_import` sheet exists, whether the three required header columns are
present, and the data rows below the header. -/
structure SheetEnv where
  present : Bool
  columnsPresent : Bool
  rows : List RawRow
deriving DecidableEq

/-- Host environment of one v1.0 run. -/
structure SyncEnvV1 where
  fetchResult : FetchResult
  sheet : SheetEnv
  updateOutcome : Nat → UpdateOutcome

/-- One target `{baseId, tableId}` of the v1.1.0 `AIRTABLE_TARGETS` list. -/
structure TargetConfig where
  baseId : String
  tableId : String
deriving DecidableEq

/-- Host environment of one v1.1.0 run: the `AIRTABLE_API_KEY` script
property, the read-response per target, the sheet, and the per-request
PATCH outcomes. -/
structure SyncEnv where
  apiKey : Option String
  fetchResult : String → String → FetchResult
  sheet : SheetEnv
  updateOutcome : Nat → UpdateOutcome

/-- The v1.1.0 configured targets. -/
def AIRTABLE_TARGETS : List TargetConfig :=
  [{ baseId := "appGDzLGgrYmcW9R1", tableId := "tblTo3zgLYNby9UnL" },
   { baseId := "", tableId := "" }]

/-- The `forEach` loop of `updateAirtable` (identical loop body in v1.0
and v1.1.0 up to the payload field names): for the instruction at index
`i` issue the PATCH, count HTTP 200 as a success and any other response
code or thrown error as an error, and always continue with the rest.
Returns (events, successCount, errorCount). -/
def updateAirtableGo (outcome : Nat → UpdateOutcome) (baseId tableId : String) :
    Nat → List UpdateInstruction → List Event × Nat × Nat
  | _, [] => ([], 0, 0)
  | i, record :: rest =>
    let step : List Event × Nat × Nat :=
      match outcome i with
      | .http code =>
        if code = 200 then
          ([Event.httpPatch baseId tableId record.id,
            Event.log ("Updated record " ++ record.id)], 1, 0)
        else
          ([Event.httpPatch baseId tableId record.id,
            Event.logErr ("Failed to update record " ++ record.id)], 0, 1)
      | .thrown =>
        ([Event.httpPatch baseId tableId record.id,
          Event.logErr ("Error updating record " ++ record.id)], 0, 1)
    let restResult := updateAirtableGo outcome baseId tableId (i + 1) rest
    (step.1 ++ restResult.1, step.2.1 + restResult.2.1, step.2.2 + restResult.2.2)

/-- `updateAirtable` (v1.0): intro log, the loop, and the completion log. -/
def updateAirtableTraceV1 (env : SyncEnvV1) (processedData : List UpdateInstruction) :
    List Event :=
  let intro := [Event.log ("Updating " ++ toString processedData.length
    ++ " Airtable records...")]
  let r := updateAirtableGo env.updateOutcome AIRTABLE_BASE_ID AIRTABLE_TABLE_ID
    0 processedData
  intro ++ r.1 ++ [Event.log ("Update complete: " ++ toString r.2.1
    ++ " successful, " ++ toString r.2.2 ++ " failed")]

/-- `updateAirtable` (v1.1.0): additionally reads the API key from script
properties and aborts (with an error log, no requests) when it is absent. -/
def updateAirtableTrace (env : SyncEnv) (cfg : TargetConfig)
    (processedData : List UpdateInstruction) : List Event :=
  let intro := [Event.log ("Updating " ++ toString processedData.length
    ++ " Airtable records in base " ++ cfg.baseId ++ "...")]
  match env.apiKey with
  | none => intro ++ [Event.logErr "Airtable API key not found in script properties"]
  | some _ =>
    let r := updateAirtableGo env.updateOutcome cfg.baseId cfg.tableId 0 processedData
    intro ++ r.1 ++ [Event.log ("Update complete: " ++ toString r.2.1
      ++ " successful, " ++ toString r.2.2 ++ " failed")]

/-- `fetchAirtableRecords` (v1.0) with its trace. -/
def fetchAirtableRecordsTraceV1 (env : SyncEnvV1) : List Event × List RemoteRecord :=
  let intro := [Event.log "Fetching records from Airtable...",
    Event.httpGet AIRTABLE_BASE_ID AIRTABLE_TABLE_ID]
  match env.fetchResult with
  | .thrown => (intro ++ [Event.logErr "Error fetching Airtable records"], [])
  | .noRecordsField =>
    (intro ++ [Event.logErr "No records found in Airtable response"], [])
  | .records items =>
    let records := fetchAirtableRecords items
    (intro ++ [Event.log ("Found " ++ toString records.length
      ++ " valid ActBlue form slugs in Airtable")], records)

/-- `fetchAirtableRecords` (v1.1.0) with its trace: reads the API key from
script properties first and degrades to no records when it is missing. -/
def fetchAirtableRecordsTrace (env : SyncEnv) (cfg : TargetConfig) :
    List Event × List RemoteRecord :=
  let intro := [Event.log ("Fetching records from Airtable (base: " ++ cfg.baseId
    ++ ", table: " ++ cfg.tableId ++ ")...")]
  match env.apiKey with
  | none => (intro ++ [Event.logErr "Airtable API key not found in script properties"], [])
  | some _ =>
    let request := intro ++ [Event.httpGet cfg.baseId cfg.tableId]
    match env.fetchResult cfg.baseId cfg.tableId with
    | .thrown => (request ++ [Event.logErr "Error fetching Airtable records"], [])
    | .noRecordsField =>
      (request ++ [Event.logErr "No records found in Airtable response"], [])
    | .records items =>
      let records := fetchAirtableRecordsV11 items
      (request ++ [Event.log ("Found " ++ toString records.length
        ++ " valid ActBlue form slugs in Airtable")], records)

/-- `getSheetData` (identical in v1.0 and v1.1.0) with its trace: the
sheet-missing, empty-data and missing-columns soft failures, then the row
loop.  The per-50000-rows progress log is elided. -/
def getSheetDataTrace (sheet : SheetEnv) (airtableRecords : List RemoteRecord) :
    List Event × List SheetRow :=
  let intro := [Event.log "Retrieving data from Google Sheets..."]
  if sheet.present = false then
    (intro ++ [Event.logErr ("Sheet '" ++ SHEET_NAME ++ "' not found")], [])
  else
    let formSlugs := airtableRecords.map RemoteRecord.formSlug
    let intro2 := intro ++ [Event.log ("Will filter sheet data for "
      ++ toString formSlugs.length ++ " form slugs")]
    if sheet.rows.length = 0 then
      (intro2 ++ [Event.logErr "No data found in sheet or only header row present"], [])
    else if sheet.columnsPresent = false then
      (intro2 ++ [Event.logErr "Could not find required columns in sheet headers"], [])
    else
      let data := getSheetData airtableRecords sheet.rows
      (intro2 ++ [Event.log ("Processing " ++ toString (sheet.rows.length + 1)
          ++ " rows from sheet, filtering for " ++ toString formSlugs.length
          ++ " form slugs..."),
        Event.log ("Found " ++ toString data.length
          ++ " matching donation records in Google Sheet (from "
          ++ toString sheet.rows.length ++ " total rows)")], data)

/-- `processData` with its trace. -/
def processDataTrace (airtableRecords : List RemoteRecord)
    (sheetData : List SheetRow) : List Event × List UpdateInstruction :=
  let d := processData airtableRecords sheetData
  ([Event.log "Processing and aggregating data...",
    Event.log ("Matched and processed " ++ toString d.length ++ " records")], d)

/-- The body of `syncData` (v1.0, single fixed target): the four stages in
sequence, each empty stage result short-circuiting with a log line. -/
def syncDataTraceV1 (env : SyncEnvV1) : List Event :=
  Event.log "Starting sync process..." ::
  (let fr := fetchAirtableRecordsTraceV1 env
   if fr.2.length = 0 then
     fr.1 ++ [Event.log "No records found in Airtable, sync complete"]
   else
     let sr := getSheetDataTrace env.sheet fr.2
     if sr.2.length = 0 then
       fr.1 ++ sr.1 ++ [Event.log "No matching data found in Google Sheet, sync complete"]
     else
       let pr := processDataTrace fr.2 sr.2
       if pr.2.length = 0 then
         fr.1 ++ sr.1 ++ pr.1
           ++ [Event.log "No matches found between Airtable and Sheet data, sync complete"]
       else
         fr.1 ++ sr.1 ++ pr.1 ++ updateAirtableTraceV1 env pr.2
           ++ [Event.log "Sync completed successfully"])

/-- The per-target body of the `AIRTABLE_TARGETS.forEach` in `syncData`
(v1.1.0): skip a blank target with a single log line; otherwise run the
four stages, each empty stage result short-circuiting this target. -/
def syncTargetTrace (env : SyncEnv) (cfg : TargetConfig) : List Event :=
  if cfg.baseId = "" ∨ cfg.tableId = "" then
    [Event.log "Skipping target with blank Base/Table IDs"]
  else
    let fr := fetchAirtableRecordsTrace env cfg
    if fr.2.length = 0 then
      fr.1 ++ [Event.log ("No records found in Airtable for base " ++ cfg.baseId
        ++ ", skipping")]
    else
      let sr := getSheetDataTrace env.sheet fr.2
      if sr.2.length = 0 then
        fr.1 ++ sr.1
          ++ [Event.log "No matching data found in Google Sheet for this target, skipping"]
      else
        let pr := processDataTrace fr.2 sr.2
        if pr.2.length = 0 then
          fr.1 ++ sr.1 ++ pr.1
            ++ [Event.log "No matches found between Airtable and Sheet data for this target, skipping"]
        else
          fr.1 ++ sr.1 ++ pr.1 ++ updateAirtableTrace env cfg pr.2

/-- The `forEach` over the target list in `syncData` (v1.1.0). -/
def syncTargetsTrace (env : SyncEnv) : List TargetConfig → List Event
  | [] => []
  | cfg :: rest => syncTargetTrace env cfg ++ syncTargetsTrace env rest

/-- `syncData` (v1.1.0): start log, the per-target loop, completion log. -/
def syncDataTrace (env : SyncEnv) (targets : List TargetConfig) : List Event :=
  Event.log "Starting multi-destination sync process..."
    :: (syncTargetsTrace env targets
        ++ [Event.log "Sync completed for all configured targets"])

/-- `manualSyncData` (v1.0): log and call `syncData` directly; the
script-properties state is neither read nor written. -/
def manualSyncData (env : SyncEnvV1) (props : PropsState) :
    PropsState × List Event :=
  (props, Event.log "Manual sync triggered by user" :: syncDataTraceV1 env)

/-- `onEdit` (v1.0): ignore edits outside `raw_import`; otherwise skip
when `shouldRespectRateLimit()` holds, else write the new timestamp via
`updateLastSyncTime()` and run `syncData`. -/
def onEdit (env : SyncEnvV1) (editedSheet : String) (now : ℚ)
    (props : PropsState) : PropsState × List Event :=
  if editedSheet ≠ SHEET_NAME then (props, [])
  else if shouldRespectRateLimit RATE_LIMIT_HOURS props now then
    (props, [Event.log "Edit detected, but skipping auto-sync due to rate limiting"])
  else
    (updateLastSyncTime now props,
     Event.log "Edit detected, running auto-sync" :: syncDataTraceV1 env)

-- Concrete inputs used by counterexamples and witnesses.

/-- Two sheet rows for the same form, each with zero amount and one
donation; both survive the `getSheetData` filter (`numDonations > 0`). -/
def bugRows : List SheetRow :=
  [{ formName := "a", dollarsRaised := 0, numDonations := 1 },
   { formName := "a", dollarsRaised := 0, numDonations := 1 }]

/-- A remote record whose slug matches `bugRows`. -/
def bugRecord : RemoteRecord :=
  { id := "rec1", actBlueUrl := "https://secure.actblue.com/donate/a", formSlug := "a" }

/-- A response item whose URL field is exactly the ActBlue prefix. -/
def prefixOnlyItem : AirtableItem :=
  { id := "rec1", actBluePage := some ACTBLUE_URL_PREFIX, actBluePageById := none }

/-- A response item with a well-formed ActBlue URL. -/
def itemW : AirtableItem :=
  { id := "recW", actBluePage := some "https://secure.actblue.com/donate/alpha",
    actBluePageById := none }

/-- Concrete pipeline inputs for the determinism witness. -/
def itemsW : List AirtableItem :=
  [itemW,
   { id := "recB", actBluePage := some "https://secure.actblue.com/donate/beta",
     actBluePageById := none }]

/-- Concrete sheet rows for the determinism witness. -/
def rowsW : List RawRow :=
  [{ form_name := "alpha", dollars_raised := some (21 / 2), num_of_donations := some 2 },
   { form_name := "alpha", dollars_raised := some (9 / 2), num_of_donations := some 1 },
   { form_name := "beta", dollars_raised := some 0, num_of_donations := some 0 },
   { form_name := "gamma", dollars_raised := some 100, num_of_donations := some 5 }]

/-- A concrete v1.1.0 environment for the blank-target witness. -/
def envW : SyncEnv :=
  { apiKey := none,
    fetchResult := fun _ _ => FetchResult.thrown,
    sheet := { present := false, columnsPresent := false, rows := [] },
    updateOutcome := fun _ => UpdateOutcome.thrown }

-- Helper lemmas (shared; not tied to any single claim).

theorem jsOrZeroQ_eq (q : ℚ) : jsOrZeroQ q = q := by
  unfold jsOrZeroQ; split <;> simp_all

theorem jsOrZeroInt_eq (n : Int) : jsOrZeroInt n = n := by
  unfold jsOrZeroInt; split <;> simp_all

theorem foldl_pushSome_eq_filterMap {α β : Type} (f : α → Option β) (l : List α)
    (acc : List β) :
    l.foldl (pushSome f) acc = acc ++ l.filterMap f := by
  induction l generalizing acc with
  | nil => simp
  | cons a l ih =>
    simp only [List.foldl_cons, List.filterMap_cons, pushSome]
    cases h : f a <;> simp [h, ih]

/-- C5: `shouldRespectRateLimit` returns false when no stored timestamp
exists; when a (parseable) timestamp exists it returns true iff the
elapsed time in hours between the stored time and now is strictly below
the configured threshold, hence false at exactly the threshold or
beyond. -/
theorem shouldRespectRateLimit_spec (threshold now t : ℚ) :
    shouldRespectRateLimit threshold none now = false
    ∧ (shouldRespectRateLimit threshold (some (some t)) now = true
        ↔ (now - t) / (1000 * 60 * 60) < threshold) := by
  refine ⟨rfl, ?_⟩
  simp [shouldRespectRateLimit, jsSub, jsDivC, jsLtB]

/-- C10: a stored timestamp that is present but unparseable (Invalid
Date, so the elapsed-hours computation is NaN) makes
`shouldRespectRateLimit` return false, so a corrupted stored timestamp
never suppresses automatic syncing. -/
theorem shouldRespectRateLimit_invalid_timestamp (threshold now : ℚ) :
    shouldRespectRateLimit threshold (some none) now = false := rfl

/-- C7: the per-target pipeline (fetch-derived records, sheet filtering,
aggregation, join) is a deterministic function of the fetched items and
the sheet grid: identical inputs yield identical update-instruction
lists, so two consecutive syncs over unchanged data write identical
field values. -/
theorem runPipeline_deterministic (items₁ items₂ : List AirtableItem)
    (rows₁ rows₂ : List RawRow) (h₁ : items₁ = items₂) (h₂ : rows₁ = rows₂) :
    runPipeline items₁ rows₁ = runPipeline items₂ rows₂ := by
  rw [h₁, h₂]

theorem runPipeline_deterministic_witness :
    itemsW = itemsW ∧ rowsW = rowsW
    ∧ runPipeline itemsW rowsW = runPipeline itemsW rowsW :=
  ⟨rfl, rfl, runPipeline_deterministic itemsW itemsW rowsW rowsW rfl rfl⟩

/-- C9: `manualSyncData` neither reads nor writes the stored rate-limit
timestamp (the resulting property state equals the input state, and the
emitted trace does not depend on it), while `onEdit` writes the property
exactly when the edit is in `raw_import` and the rate-limit check does
not fire. -/
theorem manualSync_preserves_rateLimit_prop (env : SyncEnvV1)
    (props p₁ p₂ : PropsState) (editedSheet : String) (now : ℚ) :
    (manualSyncData env props).1 = props
    ∧ (manualSyncData env p₁).2 = (manualSyncData env p₂).2
    ∧ (onEdit env editedSheet now props).1
        = (if editedSheet = SHEET_NAME
              ∧ shouldRespectRateLimit RATE_LIMIT_HOURS props now = false
           then updateLastSyncTime now props else props) := by
  refine ⟨rfl, rfl, ?_⟩
  unfold onEdit
  by_cases h1 : editedSheet = SHEET_NAME
  · by_cases h2 : shouldRespectRateLimit RATE_LIMIT_HOURS props now
    · simp [h1, h2]
    · simp [h1, h2]
  · simp [h1]

theorem updateAirtableGo_spec (outcome : Nat → UpdateOutcome)
    (baseId tableId : String) :
    ∀ (instrs : List UpdateInstruction) (i : Nat),
      (updateAirtableGo outcome baseId tableId i instrs).1.filterMap patchId
          = instrs.map (fun r => r.id)
        ∧ (updateAirtableGo outcome baseId tableId i instrs).2.1
            + (updateAirtableGo outcome baseId tableId i instrs).2.2
          = instrs.length := by
  intro instrs
  induction instrs with
  | nil => intro i; simp [updateAirtableGo]
  | cons r rest ih =>
    intro i
    obtain ⟨ih1, ih2⟩ := ih (i + 1)
    simp only [updateAirtableGo]
    cases h : outcome i with
    | http code =>
      by_cases hc : code = 200 <;>
        simp [h, hc, patchId, ih1, ih2] <;> omega
    | thrown =>
      simp [h, patchId, ih1, ih2]
      omega

/-- C6: the `updateAirtable` loop attempts every instruction exactly once
in order, whatever the outcomes of earlier requests (one PATCH per
instruction, no abort), and on completion the success and error counters
sum to the number of instructions. -/
theorem updateAirtable_attempts_every_update (outcome : Nat → UpdateOutcome)
    (baseId tableId : String) (instrs : List UpdateInstruction) :
    (updateAirtableGo outcome baseId tableId 0 instrs).1.filterMap patchId
        = instrs.map (fun r => r.id)
    ∧ (updateAirtableGo outcome baseId tableId 0 instrs).2.1
        + (updateAirtableGo outcome baseId tableId 0 instrs).2.2
      = instrs.length :=
  updateAirtableGo_spec outcome baseId tableId instrs 0

/-- C8: a target with a blank `baseId` or `tableId` is skipped entirely by
`syncData` (v1.1.0): its per-target trace is exactly one log line (so no
fetch and no update request is issued for it), and the run continues with
the remaining targets. -/
theorem syncData_skips_blank_target (env : SyncEnv) (cfg : TargetConfig)
    (rest : List TargetConfig) (h : cfg.baseId = "" ∨ cfg.tableId = "") :
    syncTargetTrace env cfg = [Event.log "Skipping target with blank Base/Table IDs"]
    ∧ (syncTargetTrace env cfg).filter isRequest = []
    ∧ ((syncTargetTrace env cfg).filter isLogLine).length = 1
    ∧ syncDataTrace env (cfg :: rest)
        = Event.log "Starting multi-destination sync process..."
          :: Event.log "Skipping target with blank Base/Table IDs"
          :: (syncTargetsTrace env rest
              ++ [Event.log "Sync completed for all configured targets"]) := by
  have hskip : syncTargetTrace env cfg
      = [Event.log "Skipping target with blank Base/Table IDs"] := by
    unfold syncTargetTrace
    rw [if_pos h]
  refine ⟨hskip, ?_, ?_, ?_⟩
  · rw [hskip]; rfl
  · rw [hskip]; rfl
  · have hcons : syncTargetsTrace env (cfg :: rest)
        = syncTargetTrace env cfg ++ syncTargetsTrace env rest := rfl
    unfold syncDataTrace
    rw [hcons, hskip]
    simp

theorem syncData_skips_blank_target_witness :
    syncTargetTrace envW { baseId := "", tableId := "x" }
      = [Event.log "Skipping target with blank Base/Table IDs"] :=
  (syncData_skips_blank_target envW { baseId := "", tableId := "x" } []
    (Or.inl rfl)).1

/-- C4: `getSheetData` materializes one `SheetRow` per data row exactly
when the row's `form_name` is a non-empty string contained in the
candidate slug list AND one of the two coerced measures is positive,
where the measures are coerced with a 0 default on parse failure
(`jsNumOrZero` / `jsIntOrZero`). -/
theorem getSheetData_row_retention (airtableRecords : List RemoteRecord)
    (rows : List RawRow) (row : RawRow) :
    getSheetData airtableRecords rows
        = rows.filterMap (getSheetRow (airtableRecords.map RemoteRecord.formSlug))
    ∧ getSheetRow (airtableRecords.map RemoteRecord.formSlug) row
        = (if row.form_name ≠ ""
              ∧ row.form_name ∈ airtableRecords.map RemoteRecord.formSlug
              ∧ (jsNumOrZero row.dollars_raised > 0 ∨ jsIntOrZero row.num_of_donations > 0)
           then some { formName := row.form_name,
                       dollarsRaised := jsNumOrZero row.dollars_raised,
                       numDonations := jsIntOrZero row.num_of_donations }
           else none) := by
  constructor
  · show rows.foldl _ [] = _
    rw [foldl_pushSome_eq_filterMap (getSheetRow (airtableRecords.map RemoteRecord.formSlug))
      rows []]
    rfl
  · unfold getSheetRow
    split_ifs with h1 h2 h3 <;> simp_all

/-- C2: `processData` emits one `UpdateInstruction` per remote record
exactly when the record's `formSlug` is a key of the aggregate map (keys
compared by exact string equality via `lookupKV`), and the instruction
carries that key's stored totals. -/
theorem processData_join_characterization (airtableRecords : List RemoteRecord)
    (sheetData : List SheetRow) :
    processData airtableRecords sheetData
      = airtableRecords.filterMap (fun record =>
          (lookupKV (aggregate sheetData) record.formSlug).map
            (fun td => { id := record.id, raised := td.1, donations := td.2 })) := by
  have hemit : emitInstruction (aggregate sheetData)
      = fun record => (lookupKV (aggregate sheetData) record.formSlug).map
          (fun td =>
            ({ id := record.id, raised := td.1, donations := td.2 } :
              UpdateInstruction)) := by
    funext record
    unfold emitInstruction
    cases hl : lookupKV (aggregate sheetData) record.formSlug with
    | none => simp [hl]
    | some td =>
      obtain ⟨t, d⟩ := td
      simp [hl, jsOrZeroQ_eq, jsOrZeroInt_eq]
  show airtableRecords.foldl (pushSome (emitInstruction (aggregate sheetData))) [] = _
  rw [foldl_pushSome_eq_filterMap (emitInstruction (aggregate sheetData))
    airtableRecords [], hemit]
  simp

/-- C1 fails on the code: for the two rows of `bugRows` (same key, zero
amounts, one donation each) the aggregation inside `processData` yields
`totalCount = 1` for key "a", while the left-to-right sum of the `count`
values of the rows with that key is 2.  The guard
`if (!formTotals[formName])` re-fires when the running amount total is 0
and resets the donation accumulator. -/
theorem processData_zero_amount_resets_count :
    processData [bugRecord] bugRows
        = [{ id := "rec1", raised := 0, donations := 1 }]
    ∧ (bugRows.filter (fun r => r.formName == "a")).foldl
        (fun acc r => acc + r.numDonations) 0 = 2 := by
  constructor
  · norm_num [processData, aggregate, aggStep, lookupKV, setKV, emitInstruction,
      pushSome, bugRows, bugRecord, jsOrZeroQ, jsOrZeroInt]
  · decide

/-- C3 as stated is false: a response item whose URL field equals the
ActBlue prefix exactly has a non-empty source URL that contains the
configured prefix, yet `fetchAirtableRecords` produces no record for it
(the stripped remainder is empty and the record is filtered out). -/
theorem fetchAirtableRecords_claim_counterexample :
    extractActBlueUrl prefixOnlyItem ≠ ""
    ∧ jsIncludes (extractActBlueUrl prefixOnlyItem) ACTBLUE_URL_PREFIX = true
    ∧ fetchAirtableRecords [prefixOnlyItem] = [] := by
  refine ⟨by decide, by decide, by decide⟩

/-- C3 (amended): a `RemoteRecord` is produced for a response item iff
its extracted source URL is non-empty, contains the configured prefix,
and removing the first occurrence of the prefix leaves a non-empty
remainder; the `matchKey` (formSlug) of a produced record is exactly that
remainder, and every surviving record has a non-empty `matchKey`. -/
theorem fetchAirtableRecords_produced_iff (items : List AirtableItem)
    (item : AirtableItem) (h : item ∈ items) :
    (mkRemoteRecord item ∈ fetchAirtableRecords items
      ↔ (extractActBlueUrl item ≠ ""
          ∧ jsIncludes (extractActBlueUrl item) ACTBLUE_URL_PREFIX = true
          ∧ jsReplaceFirst (extractActBlueUrl item) ACTBLUE_URL_PREFIX ≠ ""))
    ∧ ((mkRemoteRecord item).formSlug ≠ ""
        → (mkRemoteRecord item).formSlug
            = jsReplaceFirst (extractActBlueUrl item) ACTBLUE_URL_PREFIX)
    ∧ (∀ r ∈ fetchAirtableRecords items, r.formSlug ≠ "") := by
  have hslug : (mkRemoteRecord item).formSlug
      = mkFormSlug (extractActBlueUrl item) := rfl
  refine ⟨⟨?_, ?_⟩, ?_, ?_⟩
  · intro hmem
    have hne : (mkRemoteRecord item).formSlug ≠ "" := by
      have := (List.mem_filter.mp hmem).2
      simpa [bne_iff_ne] using this
    rw [hslug] at hne
    unfold mkFormSlug at hne
    by_cases hc : extractActBlueUrl item ≠ ""
        ∧ jsIncludes (extractActBlueUrl item) ACTBLUE_URL_PREFIX = true
    · rw [if_pos hc] at hne
      exact ⟨hc.1, hc.2, hne⟩
    · rw [if_neg hc] at hne
      exact absurd rfl hne
  · rintro ⟨hu, hi, hr⟩
    apply List.mem_filter.mpr
    refine ⟨List.mem_map_of_mem _ h, ?_⟩
    have heq : (mkRemoteRecord item).formSlug
        = jsReplaceFirst (extractActBlueUrl item) ACTBLUE_URL_PREFIX := by
      rw [hslug]; unfold mkFormSlug; rw [if_pos ⟨hu, hi⟩]
    simpa [bne_iff_ne, heq] using hr
  · intro hne
    rw [hslug] at hne ⊢
    unfold mkFormSlug at hne ⊢
    by_cases hc : extractActBlueUrl item ≠ ""
        ∧ jsIncludes (extractActBlueUrl item) ACTBLUE_URL_PREFIX = true
    · rw [if_pos hc]
    · rw [if_neg hc] at hne
      exact absurd rfl hne
  · intro r hr
    have := (List.mem_filter.mp hr).2
    simpa [bne_iff_ne] using this

theorem fetchAirtableRecords_produced_iff_witness :
    mkRemoteRecord itemW ∈ fetchAirtableRecords [itemW] :=
  ((fetchAirtableRecords_produced_iff [itemW] itemW (List.Mem.head _)).1).mpr
    (by decide)
